import Mathlib

/-
  Verification development for the recognition-session state machine of
  the vosk-api fork (src/kaldi_recognizer.cc).

  The session state (`KaldiRecognizer`'s mutable members) is embedded as a
  Lean structure; each member function becomes a pure state transformer.
  Outputs of the external Kaldi/OpenFst libraries (endpoint detection,
  frames ready in the feature pipeline, frames advanced by the decoder,
  lattices, MBR word/confidence/time lists) are supplied as explicit
  oracle inputs (`Chunk`, `DecodeEnv`, `Lat`, `MbrWord`), since those
  libraries are external collaborators of the core.  Floating point
  quantities are modelled over ℚ.
-/

namespace Vosk

/-- The recognizer lifecycle states (`RecognizerState` in the header,
as used by `kaldi_recognizer.cc`). -/
inductive RecognizerState
  | INITIALIZED
  | RUNNING
  | ENDPOINT
  | FINALIZED
  deriving DecidableEq, Repr

/-- One word entry appended to `metadata_["words"]` by
`KaldiRecognizer::ComputeTimestamp` (the JSON object with
"word"/"start"/"end"/"conf"; `end` is a Lean keyword, so the field is
`tstop`). -/
structure WordEntry where
  word : String
  tstart : ℚ
  tstop : ℚ
  conf : ℚ
  deriving DecidableEq

/-- One aligned word produced by the external MBR extraction in
`ComputeTimestamp`: the word string (already looked up through the
symbol table), its confidence `conf[i]`, and its frame times
`times[i].first` / `times[i].second`. -/
structure MbrWord where
  word : String
  conf : ℚ
  tstart : ℚ
  tstop : ℚ
  deriving DecidableEq

/-- The mutable per-session state of `KaldiRecognizer`.  Fields keep the
source member names.  `numFramesDecoded` stands for the external
decoder's `NumFramesDecoded()`; `decoderNull` for `decoder_ == NULL`;
`std_lm_fst_` for the presence of the model's rescoring LM
(`model_->std_lm_fst_`). -/
structure Recognizer where
  state_ : RecognizerState
  frame_offset_ : Nat
  samples_processed_ : Nat
  samples_round_start_ : Nat
  silence_pos : List Nat
  uttConfidence : ℚ
  last_result_ : String
  metadata_text : String
  metadata_words : List WordEntry
  numFramesDecoded : Nat
  decoderNull : Bool
  online_ : Bool
  std_lm_fst_ : Bool
  spk_model_ : Bool
  sample_frequency_ : ℚ
  deriving DecidableEq

/-- `KaldiRecognizer::InitState`: zero the round counters and enter
`RECOGNIZER_INITIALIZED`.  It does not touch `uttConfidence`. -/
def InitState (r : Recognizer) : Recognizer :=
  { r with frame_offset_ := 0, samples_processed_ := 0, samples_round_start_ := 0,
           state_ := RecognizerState.INITIALIZED }

/-- The frame offset as updated at the start of `KaldiRecognizer::CleanUp`:
`if (decoder_) frame_offset_ += decoder_->NumFramesDecoded();`. -/
def cleanUpFrameOffset (r : Recognizer) : Nat :=
  if r.decoderNull then r.frame_offset_ else r.frame_offset_ + r.numFramesDecoded

/-- The branch condition of `CleanUp` choosing the full pipeline teardown:
`decoder_ == NULL || state_ == RECOGNIZER_FINALIZED || frame_offset_ > 20000`
(with `frame_offset_` already incremented by the decoded frame count). -/
def cleanUpFullReset (r : Recognizer) : Bool :=
  r.decoderNull || decide (r.state_ = RecognizerState.FINALIZED)
    || decide (20000 < cleanUpFrameOffset r)

/-- `KaldiRecognizer::CleanUp`.  The silence-weighting and speaker-feature
helpers are recreated unconditionally (no modelled state).  On the full
path the counters move (`samples_round_start_ += samples_processed_;
samples_processed_ = 0; frame_offset_ = 0;`) and the feature pipeline and
decoder are recreated (reseeded from the model's adaptation/CMVN state, so
the fresh decoder has decoded zero frames).  On the cheap path the existing
decoder is re-initialized at the updated frame offset
(`decoder_->InitDecoding(frame_offset_)`, restarting its frame count). -/
def CleanUp (r : Recognizer) : Recognizer :=
  let fo := cleanUpFrameOffset r
  if cleanUpFullReset r then
    { r with samples_round_start_ := r.samples_round_start_ + r.samples_processed_,
             samples_processed_ := 0,
             frame_offset_ := 0,
             numFramesDecoded := 0,
             decoderNull := false }
  else
    { r with frame_offset_ := fo, numFramesDecoded := 0 }

/-- The guard at the top of `AcceptWaveform(Vector<BaseFloat>&)`:
`!(state_ == RECOGNIZER_RUNNING || state_ == RECOGNIZER_INITIALIZED)`. -/
def cleanupNeeded (r : Recognizer) : Bool :=
  !(decide (r.state_ = RecognizerState.RUNNING)
      || decide (r.state_ = RecognizerState.INITIALIZED))

/-- Lines 276-278 of `AcceptWaveform`: run `CleanUp` when the state is
neither RUNNING nor INITIALIZED. -/
def acceptPre (r : Recognizer) : Recognizer :=
  if cleanupNeeded r then CleanUp r else r

/-- Per-chunk outputs of the external libraries during one
`AcceptWaveform` call: whether `decoder_->EndpointDetected(...)` fires,
the feature pipeline's `NumFramesReady()` at that point, and how many
frames `AdvanceDecoding()` adds. -/
structure Chunk where
  endpointDetected : Bool
  numFramesReady : Nat
  framesAdvanced : Nat
  deriving DecidableEq

/-- The online-mode block of `AcceptWaveform`: silence weights are updated
and `decoder_->AdvanceDecoding()` runs, increasing the decoded frame
count; in batch mode the decoder is not advanced. -/
def acceptAdvance (r : Recognizer) (c : Chunk) : Recognizer :=
  if r.online_ then
    { r with numFramesDecoded := r.numFramesDecoded + c.framesAdvanced }
  else r

/-- `KaldiRecognizer::AcceptWaveform(Vector<BaseFloat> &wdata)`.  The wave
data itself feeds the external feature pipeline; the session state only
uses its length (`wdata.Dim()`). -/
def AcceptWaveformVec (r : Recognizer) (wdata : List ℚ) (c : Chunk) :
    Bool × Recognizer :=
  let r2 := acceptAdvance { acceptPre r with state_ := RecognizerState.RUNNING } c
  if c.endpointDetected then
    (true, { r2 with silence_pos := r2.silence_pos ++ [c.numFramesReady] })
  else
    (false, { r2 with samples_processed_ := r2.samples_processed_ + wdata.length })

/-- Reinterpretation of a little-endian byte pair as a signed 16-bit
sample (`*(((short *)data) + i)`). -/
def toInt16 (lo hi : Nat) : Int :=
  let u := lo % 256 + 256 * (hi % 256)
  if u < 32768 then (u : Int) else (u : Int) - 65536

/-- The sample sequence read by `AcceptWaveform(const char *data, int len)`:
`len / 2` shorts taken from the byte buffer; a trailing odd byte is never
read. -/
def decodeShorts : List Nat → List Int
  | lo :: hi :: rest => toInt16 lo hi :: decodeShorts rest
  | _ => []

/-- `AcceptWaveform(const short *sdata, int len)`: each short is converted
to a float sample and the vector overload is invoked. -/
def AcceptWaveformShorts (r : Recognizer) (sdata : List Int) (c : Chunk) :
    Bool × Recognizer :=
  AcceptWaveformVec r (sdata.map fun s => (s : ℚ)) c

/-- `AcceptWaveform(const char *data, int len)`: the buffer is read as
`len / 2` shorts, each converted to a float sample, and the vector
overload is invoked. -/
def AcceptWaveformBytes (r : Recognizer) (data : List Nat) (c : Chunk) :
    Bool × Recognizer :=
  AcceptWaveformVec r ((decodeShorts data).map fun s => (s : ℚ)) c

/-- `stringstream text` joining in the result functions: words separated
by single spaces. -/
def joinWords (ws : List String) : String :=
  String.intercalate " " ws

/-- `KaldiRecognizer::StoreReturn`. -/
def StoreReturn (r : Recognizer) (res : String) : String × Recognizer :=
  (res, { r with last_result_ := res })

/-- The literal empty result string of `Result`/`FinalResult`/`GetResult`. -/
def emptyTextJson : String := "\x7b\"text\": \"\"\x7d"

/-- The final text result serialization of `GetResult`. -/
def textJson (s : String) : String := "\x7b\"text\": \"" ++ s ++ "\"\x7d"

/-- The partial result serialization of `PartialResult`. -/
def partialJson (s : String) : String := "\x7b\"partial\": \"" ++ s ++ "\"\x7d"

/-- The literal empty partial result string. -/
def emptyPartialJson : String := "\x7b\"partial\": \"\"\x7d"

/-- The loop body of `KaldiRecognizer::ComputeTimestamp` over the MBR
one-best words: build the word entry with wall-clock times
`samples_round_start_ / sample_frequency_ + (frame_offset_ + t) * 0.03`,
add the confidence to `uttConfidence` unless the word is "<unk>", and
append the entry to the metadata word list. -/
def ctLoop (r : Recognizer) : List MbrWord → Recognizer
  | [] => r
  | m :: ms =>
    let entry : WordEntry :=
      { word := m.word,
        tstart := (r.samples_round_start_ : ℚ) / r.sample_frequency_
          + ((r.frame_offset_ : ℚ) + m.tstart) * (3 / 100),
        tstop := (r.samples_round_start_ : ℚ) / r.sample_frequency_
          + ((r.frame_offset_ : ℚ) + m.tstop) * (3 / 100),
        conf := m.conf }
    ctLoop
      { r with
        uttConfidence :=
          if m.word = "<unk>" then r.uttConfidence else r.uttConfidence + m.conf,
        metadata_words := r.metadata_words ++ [entry] } ms

/-- `KaldiRecognizer::ComputeTimestamp` (success path; the `bad_alloc`
catch degrading metadata to null is an external memory condition).  After
the loop, `uttConfidence /= size` with `size` the FULL word count, and the
joined text is appended to the metadata text. -/
def ComputeTimestamp (r : Recognizer) (mbr : List MbrWord) : Recognizer :=
  let r1 := ctLoop r mbr
  let text := joinWords (mbr.map MbrWord.word)
  let r2 := { r1 with uttConfidence := r1.uttConfidence / (mbr.length : ℚ) }
  if r2.metadata_text = "" then { r2 with metadata_text := text }
  else { r2 with metadata_text := r2.metadata_text ++ " " ++ text }

/-- The confidence mass the loop of `ComputeTimestamp` accumulates: the
sum of the per-word confidences with the "<unk>" contributions skipped. -/
def confSumSkipUnk (mbr : List MbrWord) : ℚ :=
  (mbr.map fun m => if m.word = "<unk>" then 0 else m.conf).sum

/-- A word lattice as `GetResult` observes it through the external
libraries: its state count, the word sequence of its shortest path
(through the symbol table), and the MBR data `ComputeTimestamp` extracts
from it. -/
structure Lat where
  numStates : Nat
  bestPathWords : List String
  mbr : List MbrWord
  deriving DecidableEq

/-- Outputs of the external decoding/rescoring machinery during a result
call: the first-pass lattice from `decoder_->GetLattice`, the lattice
after the `std_lm_fst_` rescoring passes, and the frames added by the
final `AdvanceDecoding()` in `FinalResult`. -/
structure DecodeEnv where
  firstPassLat : Lat
  rescoredLat : Lat
  finalFramesAdvanced : Nat
  deriving DecidableEq

/-- `KaldiRecognizer::GetResult`: empty text at zero decoded frames;
otherwise take the (rescored, when a rescoring LM is configured) lattice,
empty text when it has no states, else the shortest-path text with
`ComputeTimestamp` run on the lattice. -/
def GetResult (r : Recognizer) (env : DecodeEnv) : String × Recognizer :=
  if r.numFramesDecoded = 0 then
    StoreReturn r emptyTextJson
  else
    let clat := if r.std_lm_fst_ then env.rescoredLat else env.firstPassLat
    if clat.numStates = 0 then
      StoreReturn r emptyTextJson
    else
      StoreReturn (ComputeTimestamp r clat.mbr) (textJson (joinWords clat.bestPathWords))

/-- `KaldiRecognizer::PartialResult`: empty when not RUNNING, empty at
zero decoded frames, otherwise the decoder's current best path rendered
as space-joined words (`bestPathWords` is `GetBestPath(false)` through
the symbol table). -/
def PartialResult (r : Recognizer) (bestPathWords : List String) :
    String × Recognizer :=
  if r.state_ ≠ RecognizerState.RUNNING then
    StoreReturn r emptyPartialJson
  else if r.numFramesDecoded = 0 then
    StoreReturn r emptyPartialJson
  else
    StoreReturn r (partialJson (joinWords bestPathWords))

/-- `KaldiRecognizer::Result`: empty text when not RUNNING; else finalize
decoding, move to ENDPOINT and produce the transcript. -/
def Result (r : Recognizer) (env : DecodeEnv) : String × Recognizer :=
  if r.state_ ≠ RecognizerState.RUNNING then
    StoreReturn r emptyTextJson
  else
    GetResult { r with state_ := RecognizerState.ENDPOINT } env

/-- `KaldiRecognizer::FinalResult`: empty text when not RUNNING; else
finish the input, run the last silence-weight/decode pass, finalize, move
to FINALIZED and produce the transcript. -/
def FinalResult (r : Recognizer) (env : DecodeEnv) : String × Recognizer :=
  if r.state_ ≠ RecognizerState.RUNNING then
    StoreReturn r emptyTextJson
  else
    GetResult
      { r with numFramesDecoded := r.numFramesDecoded + env.finalFramesAdvanced,
               state_ := RecognizerState.FINALIZED } env

/-- A freshly constructed session, as the `KaldiRecognizer` constructor
leaves it after `InitState()` (no rescoring LM, no speaker model,
streaming mode, 16 kHz). -/
def rec0 : Recognizer :=
  { state_ := RecognizerState.INITIALIZED
    frame_offset_ := 0
    samples_processed_ := 0
    samples_round_start_ := 0
    silence_pos := []
    uttConfidence := 0
    last_result_ := ""
    metadata_text := ""
    metadata_words := []
    numFramesDecoded := 0
    decoderNull := false
    online_ := true
    std_lm_fst_ := false
    spk_model_ := false
    sample_frequency_ := 16000 }

/-- A session sitting at a mid-stream ENDPOINT (a `Result()` was taken)
with a small frame offset and some samples accounted this round. -/
def recEndpoint : Recognizer :=
  { rec0 with state_ := RecognizerState.ENDPOINT, frame_offset_ := 100,
              numFramesDecoded := 50, samples_processed_ := 7 }

/-- A finalized session with nonzero round counters. -/
def recFinalized : Recognizer :=
  { rec0 with state_ := RecognizerState.FINALIZED, frame_offset_ := 40,
              numFramesDecoded := 10, samples_processed_ := 5,
              samples_round_start_ := 2 }

/-- A chunk on which the decoder reports an endpoint at 12 buffered frames. -/
def chunkEp : Chunk :=
  { endpointDetected := true, numFramesReady := 12, framesAdvanced := 0 }

/-- A chunk with no endpoint. -/
def chunkNoEp : Chunk :=
  { endpointDetected := false, numFramesReady := 9, framesAdvanced := 4 }

/-- An empty lattice. -/
def latEmpty : Lat := { numStates := 0, bestPathWords := [], mbr := [] }

/-- A one-word lattice. -/
def latHello : Lat :=
  { numStates := 2, bestPathWords := ["hello"],
    mbr := [{ word := "hello", conf := 1, tstart := 0, tstop := 2 }] }

/-- An environment whose lattices are empty. -/
def envEmpty : DecodeEnv :=
  { firstPassLat := latEmpty, rescoredLat := latEmpty, finalFramesAdvanced := 0 }

/-! Helper lemmas about the session operations. -/

theorem cleanUp_silence_pos (r : Recognizer) : (CleanUp r).silence_pos = r.silence_pos := by
  unfold CleanUp
  split <;> rfl

theorem cleanUp_state (r : Recognizer) : (CleanUp r).state_ = r.state_ := by
  unfold CleanUp
  split <;> rfl

theorem cleanUp_online (r : Recognizer) : (CleanUp r).online_ = r.online_ := by
  unfold CleanUp
  split <;> rfl

theorem cleanUp_uttConfidence (r : Recognizer) :
    (CleanUp r).uttConfidence = r.uttConfidence := by
  unfold CleanUp
  split <;> rfl

theorem cleanUp_sample_sum (r : Recognizer) :
    (CleanUp r).samples_round_start_ + (CleanUp r).samples_processed_ =
      r.samples_round_start_ + r.samples_processed_ := by
  unfold CleanUp
  split <;> simp

theorem cleanUp_samples_le (r : Recognizer) :
    (CleanUp r).samples_processed_ ≤ r.samples_processed_ := by
  unfold CleanUp
  split <;> simp

theorem acceptPre_silence_pos (r : Recognizer) :
    (acceptPre r).silence_pos = r.silence_pos := by
  unfold acceptPre
  split
  · exact cleanUp_silence_pos r
  · rfl

theorem acceptPre_sample_sum (r : Recognizer) :
    (acceptPre r).samples_round_start_ + (acceptPre r).samples_processed_ =
      r.samples_round_start_ + r.samples_processed_ := by
  unfold acceptPre
  split
  · exact cleanUp_sample_sum r
  · rfl

theorem acceptPre_samples_le (r : Recognizer) :
    (acceptPre r).samples_processed_ ≤ r.samples_processed_ := by
  unfold acceptPre
  split
  · exact cleanUp_samples_le r
  · exact le_refl _

theorem acceptAdvance_silence_pos (r : Recognizer) (c : Chunk) :
    (acceptAdvance r c).silence_pos = r.silence_pos := by
  unfold acceptAdvance
  split <;> rfl

theorem acceptAdvance_state (r : Recognizer) (c : Chunk) :
    (acceptAdvance r c).state_ = r.state_ := by
  unfold acceptAdvance
  split <;> rfl

theorem acceptAdvance_samples_processed (r : Recognizer) (c : Chunk) :
    (acceptAdvance r c).samples_processed_ = r.samples_processed_ := by
  unfold acceptAdvance
  split <;> rfl

theorem acceptAdvance_samples_round_start (r : Recognizer) (c : Chunk) :
    (acceptAdvance r c).samples_round_start_ = r.samples_round_start_ := by
  unfold acceptAdvance
  split <;> rfl

/-- C1: every `AcceptWaveform` call leaves the session in RUNNING, and the
pipeline-reset routine `CleanUp` runs before the samples are processed if
and only if the state before the call was one of the settled states
ENDPOINT or FINALIZED (not RUNNING or INITIALIZED). -/
theorem acceptWaveform_runs_and_cleanup_iff_settled
    (r : Recognizer) (wdata : List ℚ) (c : Chunk) :
    (AcceptWaveformVec r wdata c).2.state_ = RecognizerState.RUNNING ∧
    (cleanupNeeded r = true ↔
      (r.state_ = RecognizerState.ENDPOINT ∨ r.state_ = RecognizerState.FINALIZED)) := by
  constructor
  · unfold AcceptWaveformVec
    cases hce : c.endpointDetected <;>
      simp [hce, acceptAdvance_state]
  · cases h : r.state_ <;> simp [cleanupNeeded, h]

/-- C2 counterexample: a session at a mid-stream ENDPOINT (a settled
state) with frame offset below the ceiling takes the cheap path, not the
full pipeline reset, when new audio arrives: its round counters survive
the `AcceptWaveform` call. -/
theorem endpoint_state_takes_cheap_path :
    (recEndpoint.state_ = RecognizerState.ENDPOINT ∨
      recEndpoint.state_ = RecognizerState.FINALIZED) ∧
    cleanupNeeded recEndpoint = true ∧
    cleanUpFullReset recEndpoint = false ∧
    (AcceptWaveformVec recEndpoint [1] chunkEp).2.samples_processed_ = 7 ∧
    (AcceptWaveformVec recEndpoint [1] chunkEp).2.frame_offset_ = 150 := by
  decide

/-- C2 amended: with a live decoder, the full pipeline reset happens iff
the session is FINALIZED or the cumulative frame offset (including the
frames decoded this round) exceeds the 20000-frame ceiling; otherwise
(in particular at a mid-stream ENDPOINT below the ceiling) the decoder is
cheaply re-initialized at the updated frame offset without teardown. -/
theorem cleanUp_full_reset_iff (r : Recognizer) (h : r.decoderNull = false) :
    (cleanUpFullReset r = true ↔
      (r.state_ = RecognizerState.FINALIZED ∨
        20000 < r.frame_offset_ + r.numFramesDecoded)) ∧
    (cleanUpFullReset r = false →
      CleanUp r = { r with frame_offset_ := r.frame_offset_ + r.numFramesDecoded,
                           numFramesDecoded := 0 }) := by
  constructor
  · simp [cleanUpFullReset, cleanUpFrameOffset, h]
  · intro hfull
    simp [CleanUp, hfull, cleanUpFrameOffset, h]

/-- C2 amended, witnessed at a concrete ENDPOINT session below the
ceiling. -/
theorem cleanUp_full_reset_iff_witness :
    (cleanUpFullReset recEndpoint = true ↔
      (recEndpoint.state_ = RecognizerState.FINALIZED ∨
        20000 < recEndpoint.frame_offset_ + recEndpoint.numFramesDecoded)) ∧
    (cleanUpFullReset recEndpoint = false →
      CleanUp recEndpoint =
        { recEndpoint with
            frame_offset_ := recEndpoint.frame_offset_ + recEndpoint.numFramesDecoded,
            numFramesDecoded := 0 }) :=
  cleanUp_full_reset_iff recEndpoint rfl

/-- C3: after a full pipeline reset the frame offset and the
samples-processed counter are zero, the samples-processed-before-round
counter equals the pre-reset cumulative total, and the sum of the two
sample counters is unchanged. -/
theorem cleanUp_full_reset_counters (r : Recognizer)
    (h : cleanUpFullReset r = true) :
    (CleanUp r).frame_offset_ = 0 ∧
    (CleanUp r).samples_processed_ = 0 ∧
    (CleanUp r).samples_round_start_ =
      r.samples_round_start_ + r.samples_processed_ ∧
    (CleanUp r).samples_round_start_ + (CleanUp r).samples_processed_ =
      r.samples_round_start_ + r.samples_processed_ := by
  simp [CleanUp, h]

/-- C3, witnessed at a concrete finalized session. -/
theorem cleanUp_full_reset_counters_witness :
    (CleanUp recFinalized).frame_offset_ = 0 ∧
    (CleanUp recFinalized).samples_processed_ = 0 ∧
    (CleanUp recFinalized).samples_round_start_ =
      recFinalized.samples_round_start_ + recFinalized.samples_processed_ ∧
    (CleanUp recFinalized).samples_round_start_ + (CleanUp recFinalized).samples_processed_ =
      recFinalized.samples_round_start_ + recFinalized.samples_processed_ :=
  cleanUp_full_reset_counters recFinalized (by decide)

/-- C4: `Result()` and `FinalResult()` called outside RUNNING return the
empty-text result and change nothing in the session but the stored
last-result string; in particular the lifecycle state is unchanged. -/
theorem result_outside_running_empty (r : Recognizer) (env : DecodeEnv)
    (h : r.state_ ≠ RecognizerState.RUNNING) :
    Result r env = (emptyTextJson, { r with last_result_ := emptyTextJson }) ∧
    FinalResult r env = (emptyTextJson, { r with last_result_ := emptyTextJson }) ∧
    (Result r env).2.state_ = r.state_ ∧
    (FinalResult r env).2.state_ = r.state_ := by
  simp [Result, FinalResult, StoreReturn, h]

/-- C4, witnessed at a fresh session (INITIALIZED, before any audio). -/
theorem result_outside_running_empty_witness :
    Result rec0 envEmpty = (emptyTextJson, { rec0 with last_result_ := emptyTextJson }) ∧
    FinalResult rec0 envEmpty = (emptyTextJson, { rec0 with last_result_ := emptyTextJson }) ∧
    (Result rec0 envEmpty).2.state_ = rec0.state_ ∧
    (FinalResult rec0 envEmpty).2.state_ = rec0.state_ :=
  result_outside_running_empty rec0 envEmpty (by decide)

/-- C5: in `GetResult`, zero decoded frames yields the empty-text result
immediately, independently of the lattices and with no field but the
stored last-result string touched; with frames decoded but a zero-state
lattice after the optional rescoring pass, the empty-text result is
likewise returned with the metadata untouched. -/
theorem getResult_empty_conditions (r : Recognizer) (env : DecodeEnv) :
    (r.numFramesDecoded = 0 →
      GetResult r env = (emptyTextJson, { r with last_result_ := emptyTextJson })) ∧
    (r.numFramesDecoded ≠ 0 →
      (if r.std_lm_fst_ then env.rescoredLat else env.firstPassLat).numStates = 0 →
      GetResult r env = (emptyTextJson, { r with last_result_ := emptyTextJson })) := by
  constructor
  · intro h
    simp [GetResult, StoreReturn, h]
  · intro h hlat
    simp [GetResult, StoreReturn, h, hlat]

/-- C5, witnessed at a fresh session (zero frames) and at a session with
frames decoded but an empty first-pass lattice. -/
theorem getResult_empty_conditions_witness :
    GetResult rec0 envEmpty =
      (emptyTextJson, { rec0 with last_result_ := emptyTextJson }) ∧
    GetResult { rec0 with numFramesDecoded := 3 } envEmpty =
      (emptyTextJson,
        { rec0 with numFramesDecoded := 3, last_result_ := emptyTextJson }) :=
  ⟨(getResult_empty_conditions rec0 envEmpty).1 rfl,
   (getResult_empty_conditions { rec0 with numFramesDecoded := 3 } envEmpty).2
      (by decide) (by decide)⟩

/-- C6: `AcceptWaveform` returns true iff the decoder reports an endpoint
for the chunk; when it does, the current buffered frame count is appended
to the silence-position markers and no sample is accounted (the
processed-sample counter does not increase and the cumulative sample
total is unchanged); when it does not, the chunk's sample count is added
to the cumulative total and no marker is recorded. -/
theorem acceptWaveform_endpoint_accounting
    (r : Recognizer) (wdata : List ℚ) (c : Chunk) :
    (AcceptWaveformVec r wdata c).1 = c.endpointDetected ∧
    (c.endpointDetected = true →
      (AcceptWaveformVec r wdata c).2.silence_pos =
        r.silence_pos ++ [c.numFramesReady] ∧
      (AcceptWaveformVec r wdata c).2.samples_processed_ ≤ r.samples_processed_ ∧
      (AcceptWaveformVec r wdata c).2.samples_round_start_ +
          (AcceptWaveformVec r wdata c).2.samples_processed_ =
        r.samples_round_start_ + r.samples_processed_) ∧
    (c.endpointDetected = false →
      (AcceptWaveformVec r wdata c).2.silence_pos = r.silence_pos ∧
      (AcceptWaveformVec r wdata c).2.samples_round_start_ +
          (AcceptWaveformVec r wdata c).2.samples_processed_ =
        r.samples_round_start_ + r.samples_processed_ + wdata.length) := by
  refine ⟨?_, ?_, ?_⟩
  · unfold AcceptWaveformVec
    cases hce : c.endpointDetected <;> simp [hce]
  · intro hce
    unfold AcceptWaveformVec
    refine ⟨?_, ?_, ?_⟩ <;>
      simp [hce, acceptAdvance_silence_pos, acceptAdvance_samples_processed,
        acceptAdvance_samples_round_start, acceptPre_silence_pos,
        acceptPre_samples_le, acceptPre_sample_sum]
  · intro hce
    unfold AcceptWaveformVec
    constructor
    · simp [hce, acceptAdvance_silence_pos, acceptPre_silence_pos]
    · simp only [hce, Bool.false_eq_true, if_false,
        acceptAdvance_samples_processed, acceptAdvance_samples_round_start]
      have hs := acceptPre_sample_sum r
      omega

/-- C6, witnessed at a running session on an endpoint chunk and on a
no-endpoint chunk. -/
theorem acceptWaveform_endpoint_accounting_witness :
    (AcceptWaveformVec { rec0 with state_ := RecognizerState.RUNNING } [1, 2] chunkEp).1
        = chunkEp.endpointDetected ∧
    (AcceptWaveformVec { rec0 with state_ := RecognizerState.RUNNING } [1, 2] chunkEp).2.silence_pos
        = rec0.silence_pos ++ [chunkEp.numFramesReady] ∧
    (AcceptWaveformVec { rec0 with state_ := RecognizerState.RUNNING } [1, 2] chunkNoEp).2.samples_round_start_ +
        (AcceptWaveformVec { rec0 with state_ := RecognizerState.RUNNING } [1, 2] chunkNoEp).2.samples_processed_
      = rec0.samples_round_start_ + rec0.samples_processed_ + 2 :=
  ⟨(acceptWaveform_endpoint_accounting
      { rec0 with state_ := RecognizerState.RUNNING } [1, 2] chunkEp).1,
   ((acceptWaveform_endpoint_accounting
      { rec0 with state_ := RecognizerState.RUNNING } [1, 2] chunkEp).2.1 rfl).1,
   ((acceptWaveform_endpoint_accounting
      { rec0 with state_ := RecognizerState.RUNNING } [1, 2] chunkNoEp).2.2 rfl).2⟩

/-- C7 counterexample: at a settled ENDPOINT state with five frames
already decoded, the claim's gate (state RUNNING or at least one decoded
frame) holds, yet `PartialResult` returns the empty partial result, not
the rendered best path. -/
theorem partialResult_gate_counterexample :
    (recEndpoint.state_ = RecognizerState.RUNNING ∨
      1 ≤ recEndpoint.numFramesDecoded) ∧
    (PartialResult recEndpoint ["hello"]).1 = emptyPartialJson ∧
    (PartialResult recEndpoint ["hello"]).1 ≠ partialJson (joinWords ["hello"]) := by
  refine ⟨Or.inr (by decide), rfl, by decide⟩

/-- C7 amended: `PartialResult` returns an empty result unless the state
is RUNNING AND the decoder has already processed at least one frame; in
that case it renders the current best non-finalized decode path as
space-joined words, with no timing or confidence information. -/
theorem partialResult_gate (r : Recognizer) (bestPathWords : List String) :
    (PartialResult r bestPathWords).1 =
      (if r.state_ = RecognizerState.RUNNING ∧ 1 ≤ r.numFramesDecoded
       then partialJson (joinWords bestPathWords)
       else emptyPartialJson) ∧
    (PartialResult r bestPathWords).2 =
      { r with last_result_ := (PartialResult r bestPathWords).1 } := by
  by_cases h1 : r.state_ = RecognizerState.RUNNING
  · by_cases h2 : r.numFramesDecoded = 0
    · simp [PartialResult, StoreReturn, h1, h2]
    · simp [PartialResult, StoreReturn, h1, h2, Nat.one_le_iff_ne_zero]
  · simp [PartialResult, StoreReturn, h1]

theorem decodeShorts_length : ∀ l : List Nat, (decodeShorts l).length = l.length / 2
  | [] => by simp [decodeShorts]
  | [_] => by simp [decodeShorts]
  | _ :: _ :: rest => by
    simp only [decodeShorts, List.length_cons, decodeShorts_length rest]
    omega

theorem decodeShorts_append_even :
    ∀ (l : List Nat) (b : Nat), l.length % 2 = 0 →
      decodeShorts (l ++ [b]) = decodeShorts l
  | [], _, _ => rfl
  | [_], _, h => by simp at h
  | lo :: hi :: rest, b, h => by
    have h2 : rest.length % 2 = 0 := by
      simp only [List.length_cons] at h
      omega
    simp [decodeShorts, decodeShorts_append_even rest b h2]

theorem ctLoop_uttConfidence :
    ∀ (mbr : List MbrWord) (r : Recognizer),
      (ctLoop r mbr).uttConfidence = r.uttConfidence + confSumSkipUnk mbr
  | [], r => by simp [ctLoop, confSumSkipUnk]
  | m :: ms, r => by
    by_cases h : m.word = "<unk>"
    · simp [ctLoop, confSumSkipUnk, ctLoop_uttConfidence ms, h]
    · simp [ctLoop, confSumSkipUnk, ctLoop_uttConfidence ms, h]
      ring

theorem computeTimestamp_uttConfidence (r : Recognizer) (mbr : List MbrWord) :
    (ComputeTimestamp r mbr).uttConfidence =
      (r.uttConfidence + confSumSkipUnk mbr) / (mbr.length : ℚ) := by
  simp only [ComputeTimestamp]
  split <;> simp [ctLoop_uttConfidence]

/-- C8: the utterance-level mean confidence divides, by the FULL word
count of the utterance (the "<unk>" entries included), a sum of per-word
confidences from which the "<unk>" contributions are skipped. -/
theorem computeTimestamp_confidence_policy (r : Recognizer) (mbr : List MbrWord) :
    (ComputeTimestamp r mbr).uttConfidence =
      (r.uttConfidence + confSumSkipUnk mbr) / (mbr.length : ℚ) ∧
    confSumSkipUnk mbr =
      ((mbr.filter fun m => !(m.word == "<unk>")).map MbrWord.conf).sum := by
  refine ⟨computeTimestamp_uttConfidence r mbr, ?_⟩
  induction mbr with
  | nil => rfl
  | cons m ms ih =>
    by_cases h : m.word = "<unk>" <;>
      simp [confSumSkipUnk, List.filter_cons, h, ih] <;>
      simp [confSumSkipUnk] at ih <;> simp [ih]

/-- C9: the byte-buffer variant of `AcceptWaveform` reads exactly
`len / 2` sixteen-bit samples, behaves exactly as the short-sample
variant on those decoded samples, and silently ignores the trailing byte
of every odd-length buffer. -/
theorem acceptWaveformBytes_pairs (r : Recognizer) (c : Chunk)
    (l : List Nat) (b : Nat) (h : l.length % 2 = 0) :
    (decodeShorts (l ++ [b])).length = (l ++ [b]).length / 2 ∧
    AcceptWaveformBytes r (l ++ [b]) c =
      AcceptWaveformShorts r (decodeShorts (l ++ [b])) c ∧
    AcceptWaveformBytes r (l ++ [b]) c = AcceptWaveformBytes r l c := by
  refine ⟨decodeShorts_length _, rfl, ?_⟩
  unfold AcceptWaveformBytes
  rw [decodeShorts_append_even l b h]

/-- C9, witnessed at a three-byte buffer. -/
theorem acceptWaveformBytes_pairs_witness :
    (decodeShorts ([1, 2] ++ [3])).length = ([1, 2] ++ [3]).length / 2 ∧
    AcceptWaveformBytes rec0 ([1, 2] ++ [3]) chunkEp =
      AcceptWaveformShorts rec0 (decodeShorts ([1, 2] ++ [3])) chunkEp ∧
    AcceptWaveformBytes rec0 ([1, 2] ++ [3]) chunkEp =
      AcceptWaveformBytes rec0 [1, 2] chunkEp :=
  acceptWaveformBytes_pairs rec0 chunkEp [1, 2] 3 (by decide)

/-- C10: the per-utterance confidence accumulator is untouched by session
initialization and by every pipeline reset, so the division closing each
utterance applies to a sum that still carries the previous utterances'
accumulated value. -/
theorem uttConfidence_never_reset (r : Recognizer) (m1 m2 : List MbrWord) :
    (InitState r).uttConfidence = r.uttConfidence ∧
    (CleanUp r).uttConfidence = r.uttConfidence ∧
    (ComputeTimestamp (CleanUp (ComputeTimestamp r m1)) m2).uttConfidence =
      ((r.uttConfidence + confSumSkipUnk m1) / (m1.length : ℚ) + confSumSkipUnk m2) /
        (m2.length : ℚ) := by
  refine ⟨rfl, cleanUp_uttConfidence r, ?_⟩
  rw [computeTimestamp_uttConfidence, cleanUp_uttConfidence,
    computeTimestamp_uttConfidence]

end Vosk
